import Mathlib

/-!
Verification development for the visual-to-code synthesis app
(`src/unnamed/part_000` and `src/unnamed/part_001`, which share the same
core `App` component).  Each definition below is a shallow embedding of
the TypeScript source; line references point into `part_000`.
-/

set_option maxRecDepth 10000

namespace ProductAI

/-! ## JS string primitives

`hasSub l pat` models `String.prototype.includes` on character lists
(`pat` occurs as a contiguous substring of `l`), and `replaceFirst`
models `String.prototype.replace` with a string pattern, which rewrites
only the first occurrence.
-/

def hasSub (l pat : List Char) : Bool :=
  match l with
  | [] => pat.isPrefixOf ([] : List Char)
  | _ :: t => pat.isPrefixOf l || hasSub t pat

def replaceFirst (l pat rep : List Char) : List Char :=
  match l with
  | [] => if pat.isPrefixOf ([] : List Char) then rep else []
  | c :: t =>
    if pat.isPrefixOf (c :: t) then rep ++ (c :: t).drop pat.length
    else c :: replaceFirst t pat rep

def jsIncludes (s sub : String) : Bool := hasSub s.data sub.data

def jsReplaceFirst (s pat rep : String) : String :=
  String.mk (replaceFirst s.data pat.data rep.data)

/-! ## Generated artifacts and the document assembler

`GeneratedCode` is the `generatedCode` state triple (part_000 lines
48-52); `srcDoc` is the assembler IIFE (part_000 lines 290-315).  The
JS truthiness test `generatedCode.css && ...` on a string is exactly
`css != ""`.
-/

structure GeneratedCode where
  html : String
  css : String
  javascript : String
  deriving DecidableEq

def placeholderHtml : String := "<!-- Your generated HTML will appear here -->"

def placeholderCss : String := "/* Your generated CSS will appear here */"

def placeholderJs : String := "// Your generated JavaScript will appear here"

def initialGeneratedCode : GeneratedCode :=
  { html := placeholderHtml, css := placeholderCss, javascript := placeholderJs }

/-- Step 2 of `srcDoc` (part_000 lines 298-304): inject the css inside a
style block immediately before the first `</head>` unless css is empty
or a literal `<style>` substring is already present. -/
def cssStep (g : GeneratedCode) : String :=
  if g.css != "" && !(jsIncludes g.html "<style>") then
    jsReplaceFirst g.html "</head>" ("<style>" ++ g.css ++ "</style></head>")
  else g.html

/-- Step 3 of `srcDoc` (part_000 lines 306-312): inject the javascript
inside a script block immediately before the first `</body>` of the
css-injected html unless javascript is empty or a literal `<script>`
substring is already present. -/
def jsStep (g : GeneratedCode) (h1 : String) : String :=
  if g.javascript != "" && !(jsIncludes h1 "<script>") then
    jsReplaceFirst h1 "</body>" ("<script>" ++ g.javascript ++ "</script></body>")
  else h1

/-- The assembler (part_000 lines 290-315): empty when the html still
contains the untouched placeholder comment, otherwise css then
javascript injection. -/
def srcDoc (g : GeneratedCode) : String :=
  if jsIncludes g.html placeholderHtml then ""
  else jsStep g (cssStep g)

/-! ## JSON values and a model of `JSON.parse`

The extractor (part_000 lines 245-262) feeds response text to
`JSON.parse`.  `Json` is the value domain; `strictParse` is a
recursive-descent parser for the JSON grammar accepted by `JSON.parse`
(optional surrounding whitespace, objects, arrays, strings with
escapes, numbers without leading zeros, `true`/`false`/`null`; any
trailing non-whitespace is a failure).  Numbers are kept exactly as a
signed mantissa and a power of ten.  Recursion is bounded by a fuel
argument that is amply provisioned from the input length.
-/

inductive Json where
  | null : Json
  | bool (b : Bool) : Json
  | num (mant : Int) (pow10 : Int) : Json
  | str (s : String) : Json
  | arr (elems : List Json) : Json
  | obj (fields : List (String × Json)) : Json

def isJsonWs (c : Char) : Bool :=
  c = ' ' || c = '\t' || c = '\n' || c = '\r'

def skipWs (l : List Char) : List Char := l.dropWhile isJsonWs

def hexVal (c : Char) : Option Nat :=
  if 48 ≤ c.toNat ∧ c.toNat ≤ 57 then some (c.toNat - 48)
  else if 97 ≤ c.toNat ∧ c.toNat ≤ 102 then some (c.toNat - 87)
  else if 65 ≤ c.toNat ∧ c.toNat ≤ 70 then some (c.toNat - 55)
  else none

def escChar : Char → Option Char
  | '"' => some '"'
  | '\\' => some '\\'
  | '/' => some '/'
  | 'b' => some (Char.ofNat 8)
  | 'f' => some (Char.ofNat 12)
  | 'n' => some '\n'
  | 'r' => some '\r'
  | 't' => some '\t'
  | _ => none

/-- Body of a JSON string after the opening quote: plain characters
(control characters below 0x20 are rejected, as `JSON.parse` does),
backslash escapes, and a closing quote. -/
def parseStringBody : List Char → Option (List Char × List Char)
  | [] => none
  | '"' :: rest => some ([], rest)
  | '\\' :: esc =>
    match esc with
    | 'u' :: h1 :: h2 :: h3 :: h4 :: rest => do
      let a ← hexVal h1
      let b ← hexVal h2
      let c ← hexVal h3
      let d ← hexVal h4
      let p ← parseStringBody rest
      pure (Char.ofNat (((a * 16 + b) * 16 + c) * 16 + d) :: p.1, p.2)
    | e :: rest => do
      let c ← escChar e
      let p ← parseStringBody rest
      pure (c :: p.1, p.2)
    | [] => none
  | c :: rest =>
    if c.toNat < 32 then none
    else do
      let p ← parseStringBody rest
      pure (c :: p.1, p.2)

def digitsToNat (ds : List Char) : Nat :=
  ds.foldl (fun acc c => acc * 10 + (c.toNat - 48)) 0

/-- Integer part of a JSON number: a single `0`, or a nonzero digit
followed by digits (leading zeros are a syntax error in JSON). -/
def parseIntDigits : List Char → Option (List Char × List Char)
  | [] => none
  | c :: rest =>
    if c = '0' then some ([c], rest)
    else if c.isDigit then
      some (c :: rest.takeWhile Char.isDigit, rest.dropWhile Char.isDigit)
    else none

def parseExpTail (t : List Char) : Option (Int × List Char) :=
  let signed : Int × List Char :=
    match t with
    | '+' :: r => (1, r)
    | '-' :: r => (-1, r)
    | _ => (1, t)
  let ds := signed.2.takeWhile Char.isDigit
  if ds.isEmpty then none
  else some (signed.1 * (digitsToNat ds : Int), signed.2.dropWhile Char.isDigit)

def parseExpPart (l : List Char) : Option (Int × List Char) :=
  match l with
  | 'e' :: t => parseExpTail t
  | 'E' :: t => parseExpTail t
  | _ => some (0, l)

def parseFracPart (l : List Char) : Option (List Char × List Char) :=
  match l with
  | '.' :: t =>
    let ds := t.takeWhile Char.isDigit
    if ds.isEmpty then none else some (ds, t.dropWhile Char.isDigit)
  | _ => some ([], l)

def parseNumber (l : List Char) : Option (Json × List Char) :=
  let signNeg := l.head? == some '-'
  let l1 := if signNeg then l.tail else l
  match parseIntDigits l1 with
  | none => none
  | some (ints, l2) =>
    match parseFracPart l2 with
    | none => none
    | some (frac, l3) =>
      match parseExpPart l3 with
      | none => none
      | some (ex, l4) =>
        let mantNat : Nat := digitsToNat (ints ++ frac)
        let mant : Int := if signNeg then -(mantNat : Int) else (mantNat : Int)
        some (Json.num mant (ex - (frac.length : Int)), l4)

mutual

def parseValue : Nat → List Char → Option (Json × List Char)
  | 0, _ => none
  | fuel + 1, l =>
    match skipWs l with
    | '{' :: rest => parseMembersStart fuel rest
    | '[' :: rest => parseElemsStart fuel rest
    | '"' :: rest => (parseStringBody rest).map (fun p => (Json.str (String.mk p.1), p.2))
    | 't' :: 'r' :: 'u' :: 'e' :: rest => some (Json.bool true, rest)
    | 'f' :: 'a' :: 'l' :: 's' :: 'e' :: rest => some (Json.bool false, rest)
    | 'n' :: 'u' :: 'l' :: 'l' :: rest => some (Json.null, rest)
    | l1 => parseNumber l1

def parseMembersStart : Nat → List Char → Option (Json × List Char)
  | 0, _ => none
  | fuel + 1, l =>
    match skipWs l with
    | '}' :: rest => some (Json.obj [], rest)
    | l1 => parseMembers fuel l1 []

def parseMembers : Nat → List Char → List (String × Json) → Option (Json × List Char)
  | 0, _, _ => none
  | fuel + 1, l, acc =>
    match skipWs l with
    | '"' :: rest =>
      match parseStringBody rest with
      | none => none
      | some (key, r1) =>
        match skipWs r1 with
        | ':' :: r2 =>
          match parseValue fuel r2 with
          | none => none
          | some (v, r3) =>
            match skipWs r3 with
            | ',' :: r4 => parseMembers fuel r4 (acc ++ [(String.mk key, v)])
            | '}' :: r4 => some (Json.obj (acc ++ [(String.mk key, v)]), r4)
            | _ => none
        | _ => none
    | _ => none

def parseElemsStart : Nat → List Char → Option (Json × List Char)
  | 0, _ => none
  | fuel + 1, l =>
    match skipWs l with
    | ']' :: rest => some (Json.arr [], rest)
    | l1 => parseElems fuel l1 []

def parseElems : Nat → List Char → List Json → Option (Json × List Char)
  | 0, _, _ => none
  | fuel + 1, l, acc =>
    match parseValue fuel l with
    | none => none
    | some (v, r1) =>
      match skipWs r1 with
      | ',' :: r2 => parseElems fuel r2 (acc ++ [v])
      | ']' :: r2 => some (Json.arr (acc ++ [v]), r2)
      | _ => none

end

/-- The model of `JSON.parse text`: parse one JSON value and require
that only whitespace follows.  The fuel `8 * (length + 1)` covers every
input, since entering a nesting level or a further list element always
consumes at least one character and passes through at most a handful of
mutual frames. -/
def strictParse (l : List Char) : Option Json :=
  match parseValue (8 * (l.length + 1)) l with
  | some (j, rest) => if (skipWs rest).isEmpty then some j else none
  | none => none

/-! ## Field access and JS truthiness on parsed values -/

/-- `value.key` in JS for a value whose properties can be read: only
objects have own fields (with duplicate keys `JSON.parse` keeps the
last occurrence); arrays and boxed primitives yield undefined.
Property access on `null` throws instead of yielding undefined — that
path is modelled by `nullAccessCheck`, which `extract` runs before any
field is read, so `jsGet` is never consulted on `null`. -/
def lookupLast (fields : List (String × Json)) (key : String) : Option Json :=
  fields.foldl (fun acc p => if p.1 = key then some p.2 else acc) none

def jsGet (j : Json) (key : String) : Option Json :=
  match j with
  | Json.obj fields => lookupLast fields key
  | _ => none

/-- JS truthiness of a parsed JSON value: `false`, `null`, `0` and the
empty string are falsy; arrays and objects are always truthy. -/
def jsTruthy (j : Json) : Bool :=
  match j with
  | Json.null => false
  | Json.bool b => b
  | Json.num mant _ => mant != 0
  | Json.str s => s != ""
  | Json.arr _ => true
  | Json.obj _ => true

def jsTruthyOpt (v : Option Json) : Bool :=
  match v with
  | some j => jsTruthy j
  | none => false

/-- The JS expression `v || ""`: the value itself when truthy, the
empty string otherwise (also when the property is absent). -/
def jsOrEmptyStr (v : Option Json) : Json :=
  match v with
  | some j => if jsTruthy j then j else Json.str ""
  | none => Json.str ""

/-! ## Response extraction (part_000 lines 245-275)

The source first runs `responseText.match` with the regular expression
that captures from the first open brace, greedily, to the last close
brace of the whole text; the whole text is parsed only when that match
fails.  `braceSpan` models the regex: a match exists exactly when some
open brace is followed by a close brace, and it then spans from the
first open brace to the last close brace.
-/

def hasBracePair (l : List Char) : Bool :=
  match l.dropWhile (fun c => c != '{') with
  | [] => false
  | _ :: rest => rest.contains '}'

def takeThroughLastClose (l : List Char) : List Char :=
  (l.reverse.dropWhile (fun c => c != '}')).reverse

def braceSpan (l : List Char) : Option (List Char) :=
  match l.dropWhile (fun c => c != '{') with
  | [] => none
  | c :: rest =>
    if rest.contains '}' then some (c :: takeThroughLastClose rest) else none

inductive ExtractErr where
  | parseError (raw : String)
  | validationError
  | typeError (msg : String)
  deriving DecidableEq

/-- The parse stage of `handleGenerate` (part_000 lines 245-262): parse
the regex capture when there is one, otherwise the whole text; a parse
failure of the attempted text raises the parse error carrying the raw
response (which the source logs for diagnostics). -/
def parsePhase (raw : String) : Except ExtractErr Json :=
  match braceSpan raw.data with
  | some span =>
    match strictParse span with
    | some j => Except.ok j
    | none => Except.error (ExtractErr.parseError raw)
  | none =>
    match strictParse raw.data with
    | some j => Except.ok j
    | none => Except.error (ExtractErr.parseError raw)

structure ParsedArtifacts where
  html : Json
  css : Json
  javascript : Json

/-- The validation stage (part_000 lines 264-275) for a parsed value
whose properties can be read (every value except `null`, see
`nullAccessCheck`): reject when all three fields are falsy, otherwise
keep each field with falsy or absent fields replaced by the empty
string. -/
def validateAndBuild (j : Json) : Except ExtractErr ParsedArtifacts :=
  if !(jsTruthyOpt (jsGet j "html")) && !(jsTruthyOpt (jsGet j "css"))
      && !(jsTruthyOpt (jsGet j "javascript")) then
    Except.error ExtractErr.validationError
  else
    Except.ok
      { html := jsOrEmptyStr (jsGet j "html")
        css := jsOrEmptyStr (jsGet j "css")
        javascript := jsOrEmptyStr (jsGet j "javascript") }

/-- In JS, reading a property of `null` throws a TypeError, so when
`JSON.parse` returned `null` the very first access `parsedCode.html`
at part_000 line 265 throws before any truthiness is tested; the
outer catch then surfaces the runtime message.  Property reads on
every other parsed value (objects, arrays, and boxed primitives)
never throw and yield the field value or undefined. -/
def nullAccessCheck (j : Json) : Except ExtractErr Json :=
  match j with
  | Json.null =>
    Except.error
      (ExtractErr.typeError "Cannot read properties of null (reading 'html')")
  | _ => Except.ok j

def extract (raw : String) : Except ExtractErr ParsedArtifacts :=
  match parsePhase raw with
  | Except.error e => Except.error e
  | Except.ok j =>
    match nullAccessCheck j with
    | Except.error e => Except.error e
    | Except.ok j2 => validateAndBuild j2

def trimWs (l : List Char) : List Char :=
  skipWs ((skipWs l.reverse).reverse)

/-- Modelled from the words of claim C1, not from the source: ordered
attempts where the first success wins, strict-parsing the entire
trimmed text first and the outer-brace capture second.  Kept only to be
compared against `parsePhase`, the embedding of the source. -/
def specOrderedParsePhase (raw : String) : Except ExtractErr Json :=
  match strictParse (trimWs raw.data) with
  | some j => Except.ok j
  | none =>
    match braceSpan raw.data with
    | some span =>
      match strictParse span with
      | some j => Except.ok j
      | none => Except.error (ExtractErr.parseError raw)
    | none => Except.error (ExtractErr.parseError raw)

/-! ## Component model and graph adapter (part_000 lines 24-133)

`Component` is the canonical record; `RFNode`/`RFEdge` model the react
flow node and edge records with the fields the source reads.  Numeric
fields are modelled as integers: the source only copies them and tests
JS falsiness (`x || d` defaults exactly when `x` is `0` or absent).
The node `data` carries the spread of the component; the source only
ever reads `data.properties` and `data.text` back (the callback fields
`onDelete`/`onSelect` and the `isSelected` flag are write-only and
omitted here).
-/

inductive CompType where
  | header | button | input | text | image | card
  deriving DecidableEq

structure Pos where
  x : Int
  y : Int
  deriving DecidableEq

structure Size where
  width : Int
  height : Int
  deriving DecidableEq

abbrev Props := List (String × String)

structure Component where
  id : String
  type : CompType
  position : Pos
  size : Size
  properties : Props
  text : Option String
  deriving DecidableEq

structure NodeStyle where
  width : Option Int
  height : Option Int
  deriving DecidableEq

structure NodeData where
  properties : Option Props
  text : Option String
  deriving DecidableEq

structure RFNode where
  id : String
  type : CompType
  position : Pos
  data : NodeData
  style : Option NodeStyle
  deriving DecidableEq

structure RFEdge where
  id : String
  source : String
  target : String
  deriving DecidableEq

/-- `v || d` on a JS number: `0` (and an absent value) falls back to
the default. -/
def jsNumOr (v : Option Int) (d : Int) : Int :=
  match v with
  | some n => if n = 0 then d else n
  | none => d

/-- `v || d` on a JS string: the empty string (and an absent value)
falls back to the default. -/
def jsStrOr (v : Option String) (d : String) : String :=
  match v with
  | some s => if s = "" then d else s
  | none => d

/-- `componentToNode` (part_000 lines 96-111). -/
def componentToNode (comp : Component) : RFNode :=
  { id := comp.id
    type := comp.type
    position := comp.position
    data := { properties := some comp.properties, text := comp.text }
    style := some { width := some comp.size.width, height := some comp.size.height } }

/-- `nodeToComponent` (part_000 lines 113-124).  `node.position` is an
object and hence always truthy, so its `|| ...` default never fires;
`properties` is likewise an object when present, so its default fires
only when absent. -/
def nodeToComponent (node : RFNode) : Component :=
  { id := node.id
    type := node.type
    position := node.position
    size :=
      { width := jsNumOr (node.style.bind NodeStyle.width) 150
        height := jsNumOr (node.style.bind NodeStyle.height) 50 }
    properties := (node.data.properties).getD []
    text := some (jsStrOr node.data.text "") }

/-- The graph adapter direction Component collection to nodes. -/
def toGraph (comps : List Component) : List RFNode :=
  comps.map componentToNode

/-- The derived Component collection (part_000 line 129,
`nodes.map(nodeToComponent)`). -/
def toComponents (nodes : List RFNode) : List Component :=
  nodes.map nodeToComponent

structure GraphState where
  nodes : List RFNode
  edges : List RFEdge
  selected : Option String
  deriving DecidableEq

/-- `handleDeleteComponent` (part_000 lines 73-79): filter the node out
and clear the selection pointer; the edge state is not touched. -/
def handleDeleteComponent (componentId : String) (g : GraphState) : GraphState :=
  { nodes := g.nodes.filter (fun node => node.id != componentId)
    edges := g.edges
    selected := none }

/-! ## Session state and the generate operation (part_000 lines 45-286)

`handleGenerate` unconditionally sets the loading flag, issues exactly
one remote call, and processes the outcome; there is no in-flight guard
inside it.  The remote boundary is abstracted as an
`Except String String`: a transport error message, or the response
text (possibly empty, which the source turns into its own error).
`remoteCalls` counts the calls to the external service made by the
operation.  The generate button (part_000 lines 405-409) carries
`disabled := isLoading`, so a click invokes `handleGenerate` only when
the loading flag is clear; `generateButtonClick` embeds that boundary.
-/

inductive Mode where
  | text | wireframe
  deriving DecidableEq

structure AppState where
  mode : Mode
  textInput : String
  generatedCode : GeneratedCode
  isLoading : Bool
  selectedComponent : Option String
  deriving DecidableEq

structure GenResult where
  state : AppState
  surfaced : Option String
  remoteCalls : Nat
  deriving DecidableEq

mutual

def Json.render : Json → String
  | Json.null => "null"
  | Json.bool b => if b then "true" else "false"
  | Json.num mant pow10 => toString mant ++ "e" ++ toString pow10
  | Json.str s => "\"" ++ s ++ "\""
  | Json.arr elems => "[" ++ Json.renderElems elems ++ "]"
  | Json.obj fields => "\x7b" ++ Json.renderFields fields ++ "\x7d"

def Json.renderElems : List Json → String
  | [] => ""
  | [x] => Json.render x
  | x :: xs => Json.render x ++ "," ++ Json.renderElems xs

def Json.renderFields : List (String × Json) → String
  | [] => ""
  | [(k, v)] => "\"" ++ k ++ "\":" ++ Json.render v
  | (k, v) :: ps => "\"" ++ k ++ "\":" ++ Json.render v ++ "," ++ Json.renderFields ps

end

/-- Storage of one extracted artifact into the string-typed state: the
source assigns the untyped parsed value directly; string payloads (the
documented response shape) are stored verbatim, and the model renders a
non-string payload to its JSON text. -/
def jsonToDisplay (j : Json) : String :=
  match j with
  | Json.str s => s
  | j => Json.render j

def artifactsToCode (a : ParsedArtifacts) : GeneratedCode :=
  { html := jsonToDisplay a.html
    css := jsonToDisplay a.css
    javascript := jsonToDisplay a.javascript }

/-- The processing of one remote outcome (part_000 lines 237-275): the
transport error message, the empty-response guard, then extraction; the
error strings are the messages thrown by the source, and a TypeError
from the null property access propagates with its own runtime
message. -/
def pipeline (resp : Except String String) : Except String ParsedArtifacts :=
  match resp with
  | Except.error m => Except.error m
  | Except.ok txt =>
    if txt = "" then Except.error "No response text received from Claude"
    else
      match extract txt with
      | Except.error (ExtractErr.parseError _) =>
        Except.error "Failed to parse Claude response as JSON. Please try again."
      | Except.error ExtractErr.validationError =>
        Except.error "Generated code is missing required fields (html, css, javascript)"
      | Except.error (ExtractErr.typeError m) => Except.error m
      | Except.ok a => Except.ok a

/-- `handleGenerate` (part_000 lines 137-286): always sets the loading
flag, always issues the single remote call, replaces the artifacts
wholesale on success, surfaces the error message on failure, and the
`finally` block clears the loading flag in every case. -/
def handleGenerate (s : AppState) (resp : Except String String) : GenResult :=
  match pipeline resp with
  | Except.error m =>
    { state := { s with isLoading := false }
      surfaced := some ("Error: " ++ m)
      remoteCalls := 1 }
  | Except.ok a =>
    { state := { s with generatedCode := artifactsToCode a, isLoading := false }
      surfaced := none
      remoteCalls := 1 }

/-- The generate button (part_000 lines 405-409): `disabled` while
loading, so the click reaches `handleGenerate` only when no generation
is in flight. -/
def generateButtonClick (s : AppState) (resp : Except String String) : GenResult :=
  if s.isLoading then { state := s, surfaced := none, remoteCalls := 0 }
  else handleGenerate s resp

/-! ## Concrete fixtures used by the claim theorems -/

def c2Graph : GraphState :=
  { nodes :=
      [ { id := "a", type := CompType.button, position := { x := 10, y := 20 }
          data := { properties := some [], text := some "Hi" }
          style := some { width := some 150, height := some 50 } }
      , { id := "b", type := CompType.card, position := { x := 200, y := 40 }
          data := { properties := some [], text := none }
          style := some { width := some 150, height := some 50 } } ]
    edges := [ { id := "e1", source := "a", target := "b" } ]
    selected := some "a" }

def c3State : AppState :=
  { mode := Mode.text, textInput := "a button", generatedCode := initialGeneratedCode
    isLoading := true, selectedComponent := none }

def c3IdleState : AppState :=
  { mode := Mode.text, textInput := "a button", generatedCode := initialGeneratedCode
    isLoading := false, selectedComponent := none }

def c4Comp : Component :=
  { id := "a", type := CompType.button, position := { x := 0, y := 0 }
    size := { width := 100, height := 50 }, properties := [], text := none }

def c4Comp2 : Component :=
  { id := "hdr", type := CompType.header, position := { x := 5, y := 7 }
    size := { width := 300, height := 60 }, properties := [("label", "top")]
    text := some "Welcome" }

def c7Bad : GeneratedCode :=
  { html := "<body></body>", css := "c", javascript := "x</head>y" }

def c7Good : GeneratedCode :=
  { html := "<html><head></head><body></body></html>"
    css := "b\x7bcolor:red\x7d", javascript := "f();" }

def c9State : AppState :=
  { mode := Mode.wireframe, textInput := "", generatedCode :=
      { html := "<html><body>old</body></html>", css := "p\x7b\x7d", javascript := "g();" }
    isLoading := false, selectedComponent := some "n1" }

def c10Bad : GeneratedCode :=
  { html := "<head></head>", css := "a</body>b", javascript := "alert(1)" }

def c10Plain : GeneratedCode :=
  { html := "<p>x</p>", css := "c", javascript := "j" }

/-- A single attempted strict parse, raising the parse error carrying
the raw text on failure; the building block of the parse stage. -/
def parseAttempt (raw : String) (l : List Char) : Except ExtractErr Json :=
  match strictParse l with
  | some j => Except.ok j
  | none => Except.error (ExtractErr.parseError raw)

/-- A response text that is valid JSON as a whole (an array of two
objects) but whose first-to-last-brace capture is not valid JSON. -/
def c1Raw : String := "[\x7b\"a\":1\x7d,\x7b\"b\":2\x7d]"

def c1Value : Json :=
  Json.arr [Json.obj [("a", Json.num 1 0)], Json.obj [("b", Json.num 2 0)]]

/-- A parsed object whose `html` key is present with the non-empty
value `0`, which is nevertheless JS-falsy. -/
def c6Raw : String := "\x7b\"html\":0,\"css\":\"\",\"javascript\":\"\"\x7d"

def c6Obj : Json :=
  Json.obj [("html", Json.num 0 0), ("css", Json.str ""), ("javascript", Json.str "")]

def c6OkObj : Json := Json.obj [("css", Json.str "p \x7b margin:0 \x7d")]

/-! ## Helper lemmas -/

theorem replaceFirst_of_hasSub_eq_false (l pat rep : List Char)
    (h : hasSub l pat = false) : replaceFirst l pat rep = l := by
  induction l with
  | nil =>
    unfold hasSub at h
    unfold replaceFirst
    simp [h]
  | cons c t ih =>
    unfold hasSub at h
    rw [Bool.or_eq_false_iff] at h
    unfold replaceFirst
    simp [h.1, ih h.2]

theorem jsReplaceFirst_of_not_includes (s pat rep : String)
    (h : jsIncludes s pat = false) : jsReplaceFirst s pat rep = s := by
  unfold jsIncludes at h
  unfold jsReplaceFirst
  rw [replaceFirst_of_hasSub_eq_false s.data pat.data rep.data h]

/-- A document on which none of the three rewrites of `srcDoc` fires is
a fixed point of assembly (for any artifacts pair that does not trigger
its own injection into it). -/
theorem srcDoc_fixed_of_triggers_false (d css js : String)
    (h1 : jsIncludes d placeholderHtml = false)
    (h2 : css = "" ∨ jsIncludes d "<style>" = true ∨
      jsIncludes d "</head>" = false)
    (h3 : js = "" ∨ jsIncludes d "<script>" = true ∨
      jsIncludes d "</body>" = false) :
    srcDoc { html := d, css := css, javascript := js } = d := by
  have hcss : cssStep { html := d, css := css, javascript := js } = d := by
    unfold cssStep
    rcases h2 with h2 | h2 | h2
    · simp [h2]
    · simp [h2]
    · by_cases hc : (css != "" && !(jsIncludes d "<style>")) = true
      · simp only [hc, if_true]
        exact jsReplaceFirst_of_not_includes _ _ _ h2
      · simp only [Bool.not_eq_true] at hc
        simp [hc]
  unfold srcDoc
  rw [show ({ html := d, css := css, javascript := js } : GeneratedCode).html = d
    from rfl]
  rw [h1]
  simp only [Bool.false_eq_true, if_false]
  rw [hcss]
  unfold jsStep
  rcases h3 with h3 | h3 | h3
  · simp [h3]
  · simp [h3]
  · by_cases hc : (js != "" && !(jsIncludes d "<script>")) = true
    · simp only [hc, if_true]
      exact jsReplaceFirst_of_not_includes _ _ _ h3
    · simp only [Bool.not_eq_true] at hc
      simp [hc]

theorem braceSpan_eq_none_of_hasBracePair_eq_false (l : List Char)
    (h : hasBracePair l = false) : braceSpan l = none := by
  unfold hasBracePair at h
  unfold braceSpan
  cases hm : l.dropWhile (fun c => c != '{') with
  | nil => rfl
  | cons c rest =>
    rw [hm] at h
    have h2 : rest.contains '}' = false := h
    simp at h2
    simp [h2]

theorem braceSpan_isSome_of_hasBracePair (l : List Char)
    (h : hasBracePair l = true) : ∃ span, braceSpan l = some span := by
  unfold hasBracePair at h
  unfold braceSpan
  cases hm : l.dropWhile (fun c => c != '{') with
  | nil =>
    rw [hm] at h
    exact absurd h (by simp)
  | cons c rest =>
    rw [hm] at h
    have h2 : rest.contains '}' = true := h
    simp at h2
    exact ⟨c :: takeThroughLastClose rest, by simp [h2]⟩

/-! ## Claim theorems -/

/-- C1 counterexample: the claim orders the attempts whole-text first,
outer-brace capture second.  On a response that is a JSON array of two
objects, the claimed order succeeds with the array, while the source
(part_000 lines 245-262) tries the brace capture first — which spans
from the first open brace to the last close brace, is not valid JSON,
and fails the whole extraction with the parse error. -/
theorem c1_claim_counterexample :
    specOrderedParsePhase c1Raw = Except.ok c1Value ∧
      parsePhase c1Raw = Except.error (ExtractErr.parseError c1Raw) :=
  ⟨rfl, rfl⟩

/-- C1 amended: the source makes a single parse attempt chosen by the
presence of a brace pair — the first-to-last-brace capture when one
exists, the whole untrimmed text otherwise — and a failure of that one
attempt is final (no fallback to the other text). -/
theorem c1_extraction_order (raw : String) :
    (hasBracePair raw.data = false → parsePhase raw = parseAttempt raw raw.data) ∧
    (hasBracePair raw.data = true →
      ∃ span, braceSpan raw.data = some span ∧
        parsePhase raw = parseAttempt raw span) := by
  constructor
  · intro h
    have hb := braceSpan_eq_none_of_hasBracePair_eq_false raw.data h
    unfold parsePhase
    rw [hb]
    rfl
  · intro h
    obtain ⟨span, hs⟩ := braceSpan_isSome_of_hasBracePair raw.data h
    refine ⟨span, hs, ?_⟩
    unfold parsePhase
    rw [hs]
    rfl

/-- C1 witness: a prose-wrapped object is extracted through the brace
capture. -/
theorem c1_extraction_order_witness :
    ∃ span, braceSpan "ok \x7b\"html\":\"x\"\x7d done".data = some span ∧
      parsePhase "ok \x7b\"html\":\"x\"\x7d done" =
        parseAttempt "ok \x7b\"html\":\"x\"\x7d done" span :=
  (c1_extraction_order "ok \x7b\"html\":\"x\"\x7d done").2 (by decide)

/-- C5 counterexample: the claim says every text without a brace pair
fails extraction with the parse error, but a brace-free text that is
itself valid JSON parses successfully and fails elsewhere: the number
text `123` reaches validation and fails with the missing-fields
validation error, and the literal `null` fails with the TypeError
thrown by the property access on the parsed null — neither is the
parse error. -/
theorem c5_claim_counterexample :
    hasBracePair "123".data = false ∧
      extract "123" = Except.error ExtractErr.validationError ∧
      hasBracePair "null".data = false ∧
      extract "null" =
        Except.error
          (ExtractErr.typeError "Cannot read properties of null (reading 'html')") :=
  ⟨by decide, rfl, by decide, rfl⟩

/-- C5 amended: for a text without a brace pair, extraction fails with
the parse error carrying the raw text exactly when the whole text is
not valid JSON; a brace-free text that is valid JSON parses and never
raises the parse error — it fails downstream instead (in validation,
or with the TypeError of the null property access, as the
counterexample shows at `123` and `null`). -/
theorem c5_bracefree_parse (t : String) (h : hasBracePair t.data = false) :
    parsePhase t = Except.error (ExtractErr.parseError t) ↔
      strictParse t.data = none := by
  have hb := braceSpan_eq_none_of_hasBracePair_eq_false t.data h
  unfold parsePhase
  rw [hb]
  constructor
  · intro he
    cases hs : strictParse t.data with
    | none => rfl
    | some j =>
      rw [hs] at he
      exact absurd he (by simp)
  · intro hn
    rw [hn]

/-- C5 witness: a brace-free text that is not valid JSON does fail with
the parse error carrying the raw text. -/
theorem c5_bracefree_parse_witness :
    parsePhase "not json" = Except.error (ExtractErr.parseError "not json") :=
  (c5_bracefree_parse "not json" (by decide)).mpr (by rfl)

/-- C6 counterexample: the parsed object has the key `html` present
with the non-empty value `0`, yet validation fails, because the source
(part_000 lines 264-269) tests JS truthiness, not presence plus
non-emptiness. -/
theorem c6_claim_counterexample :
    parsePhase c6Raw = Except.ok c6Obj ∧
      jsGet c6Obj "html" = some (Json.num 0 0) ∧
      Json.num 0 0 ≠ Json.str "" ∧
      validateAndBuild c6Obj = Except.error ExtractErr.validationError :=
  ⟨rfl, rfl, by simp, rfl⟩

/-- C6 amended: validation fails exactly when all three keys are
absent or carry JS-falsy values (empty string, `0`, `false`, `null`);
otherwise the result contains all three keys, each absent or falsy
field replaced by the empty string. -/
theorem c6_validation (j : Json) :
    (validateAndBuild j = Except.error ExtractErr.validationError ↔
      jsTruthyOpt (jsGet j "html") = false ∧ jsTruthyOpt (jsGet j "css") = false ∧
        jsTruthyOpt (jsGet j "javascript") = false) ∧
    (jsTruthyOpt (jsGet j "html") = true ∨ jsTruthyOpt (jsGet j "css") = true ∨
        jsTruthyOpt (jsGet j "javascript") = true →
      validateAndBuild j = Except.ok
        { html := jsOrEmptyStr (jsGet j "html")
          css := jsOrEmptyStr (jsGet j "css")
          javascript := jsOrEmptyStr (jsGet j "javascript") }) := by
  have hchar : (!(jsTruthyOpt (jsGet j "html")) && !(jsTruthyOpt (jsGet j "css"))
      && !(jsTruthyOpt (jsGet j "javascript"))) = true ↔
      (jsTruthyOpt (jsGet j "html") = false ∧ jsTruthyOpt (jsGet j "css") = false ∧
        jsTruthyOpt (jsGet j "javascript") = false) := by
    simp [Bool.and_eq_true, Bool.not_eq_true', and_assoc]
  constructor
  · constructor
    · intro he
      by_cases h : (!(jsTruthyOpt (jsGet j "html")) && !(jsTruthyOpt (jsGet j "css"))
          && !(jsTruthyOpt (jsGet j "javascript"))) = true
      · exact hchar.mp h
      · unfold validateAndBuild at he
        simp [h] at he
    · intro hf
      unfold validateAndBuild
      simp [hchar.mpr hf]
  · intro ht
    have h : (!(jsTruthyOpt (jsGet j "html")) && !(jsTruthyOpt (jsGet j "css"))
        && !(jsTruthyOpt (jsGet j "javascript"))) = false := by
      rcases ht with h | h | h <;> simp [h]
    unfold validateAndBuild
    simp [h]

/-- C6 witness: an object carrying only a non-empty `css` passes
validation, and the two absent keys come back as empty strings. -/
theorem c6_validation_witness :
    validateAndBuild c6OkObj = Except.ok
      { html := Json.str "", css := Json.str "p \x7b margin:0 \x7d"
        javascript := Json.str "" } := by
  rw [(c6_validation c6OkObj).2
    (Or.inr (Or.inl (by rfl : jsTruthyOpt (jsGet c6OkObj "css") = true)))]
  rfl

/-- C8: for every artifacts record whose html equals the untouched
placeholder, the assembled document is the empty string, regardless of
the css and javascript contents. -/
theorem c8_placeholder_yields_empty (css js : String) :
    srcDoc { html := placeholderHtml, css := css, javascript := js } = "" := by
  have h : jsIncludes placeholderHtml placeholderHtml = true := by decide
  unfold srcDoc
  simp [h]

/-- C7 counterexample: the claim asserts assembly is idempotent for
every artifacts record whose html is not the placeholder, but when the
javascript contains a closing head tag and the html has none, the
second assembly injects the style block inside the script block. -/
theorem c7_claim_counterexample :
    jsIncludes c7Bad.html placeholderHtml = false ∧
      srcDoc { c7Bad with html := srcDoc c7Bad } ≠ srcDoc c7Bad := by
  constructor
  · decide
  · decide

/-- C7 amended: the injections are conditional exactly as claimed, and
re-assembling an already-assembled document is a no-op whenever the
assembled output no longer triggers any rewrite: it does not contain
the placeholder marker, and for each non-empty artifact it already
contains the corresponding block marker or lacks the corresponding
anchor. -/
theorem c7_reassembly_noop (g : GeneratedCode)
    (h1 : jsIncludes (srcDoc g) placeholderHtml = false)
    (h2 : g.css = "" ∨ jsIncludes (srcDoc g) "<style>" = true ∨
      jsIncludes (srcDoc g) "</head>" = false)
    (h3 : g.javascript = "" ∨ jsIncludes (srcDoc g) "<script>" = true ∨
      jsIncludes (srcDoc g) "</body>" = false) :
    srcDoc { g with html := srcDoc g } = srcDoc g :=
  srcDoc_fixed_of_triggers_false (srcDoc g) g.css g.javascript h1 h2 h3

/-- C7 witness: on a standard skeleton both blocks are injected (the
output differs from the input html) and re-assembly is a no-op. -/
theorem c7_reassembly_noop_witness :
    srcDoc { c7Good with html := srcDoc c7Good } = srcDoc c7Good ∧
      srcDoc c7Good ≠ c7Good.html :=
  ⟨c7_reassembly_noop c7Good (by decide) (Or.inr (Or.inl (by decide)))
      (Or.inr (Or.inl (by decide))), by decide⟩

/-- C10 counterexample: the claim asserts the javascript is silently
dropped whenever the html contains no closing body tag, but the css
step can itself introduce one (here css contains a closing body tag),
after which the script block is injected inside the style block. -/
theorem c10_claim_counterexample :
    jsIncludes c10Bad.html "</body>" = false ∧
      jsIncludes (srcDoc c10Bad) "<script>" = true ∧
      srcDoc c10Bad ≠ srcDoc { c10Bad with javascript := "" } := by
  refine ⟨by decide, by decide, by decide⟩

/-- C10 amended: with the placeholder absent, a missing closing head
tag makes assembly behave as if css were empty, and a missing closing
body tag in the css-injected html makes assembly behave as if
javascript were empty; the body-side test is made against the html
after the css step, which can differ from the original html when css
introduces a closing body tag.  Assembly is total and never fails. -/
theorem c10_missing_anchor (g : GeneratedCode)
    (h0 : jsIncludes g.html placeholderHtml = false) :
    (jsIncludes g.html "</head>" = false →
      srcDoc g = srcDoc { g with css := "" }) ∧
    (jsIncludes (cssStep g) "</body>" = false →
      srcDoc g = srcDoc { g with javascript := "" }) := by
  constructor
  · intro h
    have hcss : cssStep g = g.html := by
      unfold cssStep
      by_cases hc : (g.css != "" && !(jsIncludes g.html "<style>")) = true
      · simp only [hc, if_true]
        exact jsReplaceFirst_of_not_includes _ _ _ h
      · simp only [Bool.not_eq_true] at hc
        simp [hc]
    have hcss2 : cssStep { g with css := "" } = g.html := by
      unfold cssStep
      simp
    unfold srcDoc
    simp only [h0, Bool.false_eq_true, if_false]
    rw [show ({ g with css := "" } : GeneratedCode).html = g.html from rfl]
    rw [hcss, hcss2]
    unfold jsStep
    rfl
  · intro h
    have hjs : jsStep g (cssStep g) = cssStep g := by
      unfold jsStep
      by_cases hc : (g.javascript != "" && !(jsIncludes (cssStep g) "<script>")) = true
      · simp only [hc, if_true]
        exact jsReplaceFirst_of_not_includes _ _ _ h
      · simp only [Bool.not_eq_true] at hc
        simp [hc]
    have hsame : cssStep { g with javascript := "" } = cssStep g := rfl
    unfold srcDoc
    simp only [h0, Bool.false_eq_true, if_false]
    rw [show ({ g with javascript := "" } : GeneratedCode).html = g.html from rfl]
    rw [hsame, hjs]
    unfold jsStep
    simp

/-- C10 witness: with neither anchor present, assembly leaves the html
alone with respect to both artifacts. -/
theorem c10_missing_anchor_witness :
    srcDoc c10Plain = srcDoc { c10Plain with css := "" } ∧
      srcDoc c10Plain = srcDoc { c10Plain with javascript := "" } :=
  ⟨(c10_missing_anchor c10Plain (by decide)).1 (by decide),
    (c10_missing_anchor c10Plain (by decide)).2 (by decide)⟩

theorem filter_id_ne_length (l : List RFNode) (cid : String)
    (h1 : (l.map RFNode.id).Nodup) (h2 : cid ∈ l.map RFNode.id) :
    (l.filter (fun n => n.id != cid)).length + 1 = l.length := by
  induction l with
  | nil => simp at h2
  | cons n t ih =>
    rw [List.map_cons, List.nodup_cons] at h1
    by_cases hc : n.id = cid
    · subst hc
      have hfeq : t.filter (fun x => x.id != n.id) = t := by
        apply List.filter_eq_self.mpr
        intro x hx
        have hxid : x.id ∈ t.map RFNode.id := List.mem_map_of_mem RFNode.id hx
        have hne : x.id ≠ n.id := fun he => h1.1 (he ▸ hxid)
        simp [hne]
      simp [List.filter_cons, hfeq]
    · have h2t : cid ∈ t.map RFNode.id := by
        rcases List.mem_cons.mp h2 with h | h
        · exact absurd h.symm hc
        · exact h
      have hkeep : (n.id != cid) = true := by simp [hc]
      have ih2 := ih h1.2 h2t
      simp only [List.filter_cons, hkeep, if_true, List.length_cons]
      omega

/-- C2 counterexample: deleting node `a` leaves the edge out of `a`
in the edge list even though `a` is no longer a node id — dangling
edges are not cleared. -/
theorem c2_claim_counterexample :
    (handleDeleteComponent "a" c2Graph).edges =
        [{ id := "e1", source := "a", target := "b" }] ∧
      (handleDeleteComponent "a" c2Graph).nodes.map RFNode.id = ["b"] :=
  ⟨rfl, rfl⟩

/-- C2 amended: deleting a node that is present in a graph with unique
node ids removes exactly one Component from the derived collection and
clears the selection pointer (unconditionally), but leaves the edge
list untouched — edges incident to the deleted node remain dangling. -/
theorem c2_delete_node (g : GraphState) (cid : String)
    (h1 : (g.nodes.map RFNode.id).Nodup) (h2 : cid ∈ g.nodes.map RFNode.id) :
    (toComponents (handleDeleteComponent cid g).nodes).length + 1 =
        (toComponents g.nodes).length ∧
      (handleDeleteComponent cid g).selected = none ∧
      (handleDeleteComponent cid g).edges = g.edges := by
  refine ⟨?_, rfl, rfl⟩
  unfold toComponents handleDeleteComponent
  simp only [List.length_map]
  exact filter_id_ne_length g.nodes cid h1 h2

/-- C2 witness: the amended statement evaluated on the two-node
fixture. -/
theorem c2_delete_node_witness :
    (toComponents (handleDeleteComponent "a" c2Graph).nodes).length + 1 =
        (toComponents c2Graph.nodes).length ∧
      (handleDeleteComponent "a" c2Graph).selected = none ∧
      (handleDeleteComponent "a" c2Graph).edges = c2Graph.edges :=
  c2_delete_node c2Graph "a" (by decide) (by decide)

/-- C3 counterexample: with the loading flag set (a generation in
flight), invoking the generate operation itself still issues a remote
call — there is no guard at the boundary of `handleGenerate`
(part_000 lines 137-140 set the flag and proceed unconditionally). -/
theorem c3_claim_counterexample :
    c3State.isLoading = true ∧
      (handleGenerate c3State (Except.error "network failure")).remoteCalls = 1 :=
  ⟨rfl, rfl⟩

/-- C3 amended: the at-most-one-in-flight policy is enforced only at
the UI boundary — the generate button is disabled while loading, so a
button-mediated request during a generation triggers nothing: no state
change, no surfaced message, no remote call, and nothing queued. -/
theorem c3_button_rejects (s : AppState) (resp : Except String String)
    (h : s.isLoading = true) :
    generateButtonClick s resp =
      { state := s, surfaced := none, remoteCalls := 0 } := by
  unfold generateButtonClick
  simp [h]

/-- C3 witness: the button boundary rejects the request in the loading
fixture state. -/
theorem c3_button_rejects_witness :
    generateButtonClick c3State (Except.error "offline") =
      { state := c3State, surfaced := none, remoteCalls := 0 } :=
  c3_button_rejects c3State (Except.error "offline") rfl

theorem roundtrip_component (c : Component) (hw : 0 < c.size.width)
    (hh : 0 < c.size.height) :
    nodeToComponent (componentToNode c) =
      { c with text := some (c.text.getD "") } := by
  obtain ⟨cid, cty, cpos, ⟨w, hgt⟩, cprops, ctext⟩ := c
  have hw0 : w ≠ 0 := by simp only at hw; omega
  have hh0 : hgt ≠ 0 := by simp only at hh; omega
  unfold nodeToComponent componentToNode jsNumOr jsStrOr
  cases ctext with
  | none => simp [hw0, hh0]
  | some s =>
    by_cases hs : s = "" <;> simp [hw0, hh0, hs]

/-- C4 counterexample: on a component without a text label (the claim
hypotheses hold: unique ids, positive sizes), the round trip returns
the empty-string label instead of the absent label, so the collection
is not value-equal to the original on text. -/
theorem c4_claim_counterexample :
    ([c4Comp].map Component.id).Nodup ∧
      0 < c4Comp.size.width ∧ 0 < c4Comp.size.height ∧
      (toComponents (toGraph [c4Comp])).map Component.text = [some ""] ∧
      [c4Comp].map Component.text = [none] ∧
      toComponents (toGraph [c4Comp]) ≠ [c4Comp] :=
  ⟨by decide, by decide, by decide, rfl, rfl, by decide⟩

/-- C4 amended: for collections with unique ids and positive sizes,
the round trip preserves id, kind, position, size and properties of
every element in order, and preserves text whenever it is present; an
absent text comes back as the (present) empty string. -/
theorem c4_roundtrip (cs : List Component)
    (_h1 : (cs.map Component.id).Nodup)
    (h2 : ∀ c ∈ cs, 0 < c.size.width ∧ 0 < c.size.height) :
    toComponents (toGraph cs) =
      cs.map (fun c => { c with text := some (c.text.getD "") }) := by
  unfold toComponents toGraph
  rw [List.map_map]
  apply List.map_congr_left
  intro c hc
  exact roundtrip_component c (h2 c hc).1 (h2 c hc).2

/-- C4 witness: a two-component collection (one with a label, one
without) round-trips to itself up to the empty-string default. -/
theorem c4_roundtrip_witness :
    toComponents (toGraph [c4Comp2, c4Comp]) =
      [c4Comp2, { c4Comp with text := some "" }] := by
  rw [c4_roundtrip [c4Comp2, c4Comp] (by decide) (by decide)]
  rfl

/-- C9: every failing generation attempt (transport error, empty
response, parse error or validation error) leaves the prior artifacts
untouched, surfaces the error message, and clears the loading flag. -/
theorem c9_failure_atomic (s : AppState) (resp : Except String String)
    (m : String) (h : pipeline resp = Except.error m) :
    handleGenerate s resp =
      { state := { s with isLoading := false }
        surfaced := some ("Error: " ++ m)
        remoteCalls := 1 } ∧
      ({ s with isLoading := false } : AppState).generatedCode =
        s.generatedCode := by
  refine ⟨?_, rfl⟩
  unfold handleGenerate
  rw [h]

/-- C9 witness: a prose-only response fails extraction; the prior
artifacts survive, the parse error message is surfaced, and the
session is idle again. -/
theorem c9_failure_atomic_witness :
    handleGenerate c9State (Except.ok "The model replied with prose only") =
        { state := { c9State with isLoading := false }
          surfaced :=
            some "Error: Failed to parse Claude response as JSON. Please try again."
          remoteCalls := 1 } ∧
      ({ c9State with isLoading := false } : AppState).generatedCode =
        c9State.generatedCode :=
  c9_failure_atomic c9State (Except.ok "The model replied with prose only")
    "Failed to parse Claude response as JSON. Please try again." (by rfl)

end ProductAI
